import Mathlib

/-!
Shallow embedding of `src/lib/interfaces/panbinaural.js` (the PanBinaural
widget of the nexus-ui fork).  JavaScript numbers are modelled as real
numbers, so floating-point claims hold exactly; `Math.atan2 y x` is modelled
as the argument of the complex number `x + y i`, which agrees with the
JavaScript function on every input with well-defined sign.  An operation
that would throw a `TypeError` at runtime (property access on `undefined`)
is modelled as returning `none`; a successful run returns `some` of the new
state, paired with the list of `change` events it emits where relevant.
An emitted event with payload `undefined` (possible when `transmitMode` is
neither 0 nor 1) is modelled as `none` inside the event list.
-/

noncomputable section

namespace PanBinaural

/-- `Math.atan2 y x`, as the argument of the complex number `x + y i`.
Its value always lies in `(-π, π]`. -/
def atan2 (y x : ℝ) : ℝ := Complex.arg ⟨x, y⟩

/-- The `Point` class (lines 38-45): position, display label, palette index. -/
structure Point where
  x : ℝ
  y : ℝ
  label : String
  colorIndex : ℕ


/-- The SVG circle created for each source point (`generateNewPoint`,
lines 285-292): the attributes the widget writes on it. -/
structure SourceElem where
  cx : ℝ
  cy : ℝ
  r : ℝ
  fillOpacity : String
  fill : Option String
  stroke : String


/-- The SVG text label created for each source point (`generateNewPoint`,
lines 294-299): the attributes the widget writes on it. -/
structure LabelElem where
  x : ℝ
  y : ℝ
  fill : String
  textAnchor : String
  textContent : String


/-- The mutable instance state of a `PanBinaural` widget: the fields set in
the constructor (lines 49-109) and `buildInterface` (lines 111-124), plus
the pointer state (`mouse.x`, `mouse.y`, `clicked`) inherited from the host
`Interface` base class. -/
structure State where
  width : ℝ
  height : ℝ
  activePoint : Option ℕ
  currentColorIndex : ℕ
  meterScale : ℝ
  val : List Point
  circleCenterX : ℝ
  circleCenterY : ℝ
  listenerPoint : Point
  bgRadius : ℝ
  nodeSize : ℝ
  nodeSizeMain : ℝ
  activeBorderColor : String
  customColors : List String
  transmitMode : ℕ
  headOrientation : ℝ
  angleRelativeToHead : Bool
  clickable : Bool
  newPointsGeneratable : Bool
  sourceElements : List SourceElem
  labelElements : List LabelElem
  mouseX : ℝ
  mouseY : ℝ
  clicked : Bool

/-- The constructor (lines 49-109) for a given `size: [w, h]`. -/
def mkState (w h : ℝ) : State where
  width := w
  height := h
  activePoint := none
  currentColorIndex := 0
  meterScale := 100
  val := []
  circleCenterX := w / 2
  circleCenterY := h / 2
  listenerPoint := ⟨w / 2, h / 2, "Listener", 0⟩
  bgRadius := min (w / 2) (h / 2) - 50
  nodeSize := 30
  nodeSizeMain := 30 * 1.5
  activeBorderColor := "#000"
  customColors := ["#845ec2", "#d65db1", "#ff6f91", "#ff9671",
                   "#ffc75f", "#f9f871", "#2f4858", "#2e6775"]
  transmitMode := 1
  headOrientation := 0
  angleRelativeToHead := false
  clickable := true
  newPointsGeneratable := true
  sourceElements := []
  labelElements := []
  mouseX := 0
  mouseY := 0
  clicked := false

/-- `convertToMeters` (lines 425-428). -/
def convertToMeters (s : State) (pixels : ℝ) : ℝ := pixels / s.meterScale

/-- `convertToPixels` (lines 429-432). -/
def convertToPixels (s : State) (meters : ℝ) : ℝ := meters * s.meterScale

/-- `polToCar` (lines 433-443). -/
def polToCar (distance angleDeg : ℝ) : ℝ × ℝ :=
  let angleRad := angleDeg / 180 * Real.pi
  (distance * Real.cos angleRad, distance * Real.sin angleRad)

/-- `calculateDistance` (lines 444-450). -/
def calculateDistance (s : State) (pointA pointB : Point) : ℝ :=
  let distX := pointB.x - pointA.x
  let distY := pointB.y - pointA.y
  let lengthInPx := Real.sqrt (distX * distX + distY * distY)
  convertToMeters s lengthInPx

/-- `calculateAngle` (lines 451-476). -/
def calculateAngle (s : State) (pointXY : Point) : ℝ :=
  let realX := pointXY.x - s.circleCenterX
  let realY := pointXY.y - s.circleCenterY
  let angle0 := atan2 realY realX * 180 / Real.pi
  let angle1 := if angle0 < 0 then angle0 + 360 else angle0
  let angle2 := angle1 + 90
  let angle3 := if angle2 ≥ 360 then angle2 - 360 else angle2
  if s.angleRelativeToHead then
    if angle3 - s.headOrientation < 0 then angle3 - s.headOrientation + 360
    else angle3 - s.headOrientation
  else angle3

/-- The boundary clamp applied to one point by `scaleNode` (lines 339-357):
if the squared distance from the panel centre exceeds `bgRadius²`, the point
is recomputed at distance `bgRadius` along the direction `atan2` gives. -/
def clampPoint (s : State) (p : Point) : Point :=
  if (p.x - s.circleCenterX) * (p.x - s.circleCenterX) +
      (p.y - s.circleCenterY) * (p.y - s.circleCenterY) > s.bgRadius * s.bgRadius then
    ⟨s.bgRadius * Real.cos (atan2 (p.y - s.circleCenterY) (p.x - s.circleCenterX))
       + s.circleCenterX,
     s.bgRadius * Real.sin (atan2 (p.y - s.circleCenterY) (p.x - s.circleCenterX))
       + s.circleCenterY, p.label, p.colorIndex⟩
  else p

/-- `scaleNode` (lines 337-362): no-op when no point is active; otherwise
clamps the active point.  `none` models the `TypeError` thrown when
`activePoint` is a stale index with no point behind it. -/
def scaleNode (s : State) : Option State :=
  match s.activePoint with
  | none => some s
  | some i =>
    match s.val[i]? with
    | none => none
    | some p => some { s with val := s.val.set i (clampPoint s p) }

/-- The scan loop of `setActivePoint` (lines 310-323): walks the point list
keeping the index of the last point whose square bounding box (half-width
`nodeSize`) contains `(x, y)`. -/
def hitLoop (ns x y : ℝ) : List Point → ℕ → Option ℕ → Option ℕ
  | [], _, temp => temp
  | p :: rest, i, temp =>
    hitLoop ns x y rest (i + 1)
      (if x ≤ p.x + ns ∧ x ≥ p.x - ns ∧ y ≤ p.y + ns ∧ y ≥ p.y - ns then some i else temp)

/-- `setActivePoint` (lines 308-325). -/
def setActivePoint (s : State) (x y : ℝ) : State :=
  { s with activePoint := hitLoop s.nodeSize x y s.val 0 none }

/-- `drawEmphasisCircle` (lines 327-335): gives the active point's marker the
active border colour and strokes every other marker with `'none'`.  `none`
models the `TypeError` when there is no active point or no marker behind the
active index. -/
def drawEmphasisCircle (s : State) : Option State :=
  match s.activePoint with
  | none => none
  | some i =>
    match s.sourceElements[i]? with
    | none => none
    | some _ =>
      some { s with
        sourceElements := s.sourceElements.mapIdx fun j e =>
          if j = i then { e with stroke := s.activeBorderColor }
          else { e with stroke := "none" } }

/-- The payload of a `change` event (`processToTransmit`, lines 364-397):
either the per-point arrays of transmit mode 0 or the single-point record of
transmit mode 1. -/
inductive TransmitData where
  | all (angles distances : List ℝ)
  | single (pointIndex : ℕ) (angle distance : ℝ)

/-- `processToTransmit` (lines 364-397).  Returns the list of events emitted:
`[]` when the emission is suppressed (mode 1 with no active point), one
event otherwise; in mode 1 with an active point whose index has no point
behind it the computation throws (`none`).  A `none` entry inside the list
is an event whose payload is `undefined` (transmit mode outside {0, 1}). -/
def processToTransmit (s : State) : Option (List (Option TransmitData)) :=
  if s.transmitMode = 0 then
    some [some (TransmitData.all (s.val.map (calculateAngle s))
      (s.val.map (calculateDistance s s.listenerPoint)))]
  else if s.transmitMode = 1 then
    match s.activePoint with
    | some i =>
      match s.val[i]? with
      | some p => some [some (TransmitData.single i (calculateAngle s p)
          (calculateDistance s s.listenerPoint p))]
      | none => none
    | none => some []
  else
    some [none]

/-- `generateNewPoint` (lines 279-306): pushes the new point, re-runs the
hit test at its coordinates (the new, last point always wins when
`nodeSize ≥ 0`), clamps the active point, then creates the marker circle and
the label in lockstep. -/
def generateNewPoint (s : State) (x y : ℝ) (label : String) (colorIndex : ℕ) :
    Option State :=
  let s1 := { s with val := s.val ++ [⟨x, y, label, colorIndex⟩] }
  let s2 := setActivePoint s1 x y
  match scaleNode s2 with
  | none => none
  | some s3 =>
    match s3.activePoint with
    | none => none
    | some i =>
      match s3.val[i]? with
      | none => none
      | some p =>
        let se : SourceElem :=
          ⟨p.x, p.y, s3.nodeSize, "0.5", s3.customColors[colorIndex]?, "none"⟩
        let le : LabelElem := ⟨p.x, p.y + s3.nodeSize + 20, "black", "middle", label⟩
        some { s3 with
          sourceElements := s3.sourceElements ++ [se],
          labelElements := s3.labelElements ++ [le] }

/-- The polar-to-panel conversion shared by `addNewPoint` (lines 215-233)
and `moveExistingPoint` (lines 239-255): the −90° head adjustment with its
single 360° wrap, `polToCar`, pixel scaling, and translation to the centre. -/
def toPanelCoords (s : State) (distance angle : ℝ) : ℝ × ℝ :=
  let angle1 := angle - 90
  let angle2 := if angle1 ≥ 360 then angle1 - 360 else angle1
  let tempPoint := polToCar distance angle2
  (convertToPixels s tempPoint.1 + s.circleCenterX,
   convertToPixels s tempPoint.2 + s.circleCenterY)

/-- `addNewPoint` (lines 215-237). -/
def addNewPoint (s : State) (distance angle : ℝ) (label : String)
    (colorIndex : ℕ) : Option State :=
  let c := toPanelCoords s distance angle
  match generateNewPoint s c.1 c.2 label colorIndex with
  | none => none
  | some s1 => drawEmphasisCircle s1

/-- `moveExistingPoint` (lines 239-270): converts the polar input, writes the
point at `pointIndex` and its visuals, then calls `scaleNode`, which clamps
the *active* point, not necessarily the moved one.  There is no bounds
check: an out-of-range `pointIndex` throws (`none`). -/
def moveExistingPoint (s : State) (pointIndex : ℕ) (distance angle : ℝ) :
    Option State :=
  let c := toPanelCoords s distance angle
  match s.val[pointIndex]? with
  | none => none
  | some p =>
    let s1 := { s with val := s.val.set pointIndex ⟨c.1, c.2, p.label, p.colorIndex⟩ }
    match s1.sourceElements[pointIndex]? with
    | none => none
    | some se =>
      let s2 := { s1 with
        sourceElements := s1.sourceElements.set pointIndex { se with cx := c.1, cy := c.2 } }
      match s2.labelElements[pointIndex]? with
      | none => none
      | some le =>
        let s3 := { s2 with
          labelElements := s2.labelElements.set pointIndex
            { le with x := c.1, y := c.2 + s.nodeSize + 20 } }
        scaleNode s3

/-- `changeColorIndexOfActivePoint` (lines 272-277): no-op without an active
point; otherwise retags the active point and refills its marker with
`customColors[colorIndex]` (`none` fill models an out-of-palette index,
which JavaScript passes through as `undefined`). -/
def changeColorIndexOfActivePoint (s : State) (colorIndex : ℕ) : Option State :=
  match s.activePoint with
  | none => some s
  | some i =>
    match s.val[i]? with
    | none => none
    | some p =>
      let s1 := { s with val := s.val.set i ⟨p.x, p.y, p.label, colorIndex⟩ }
      match s1.sourceElements[i]? with
      | none => none
      | some se =>
        some { s1 with
          sourceElements := s1.sourceElements.set i
            { se with fill := s.customColors[colorIndex]? } }

/-- `removeActivePoint` (lines 399-412). -/
def removeActivePoint (s : State) : Option State :=
  match s.activePoint with
  | none => some s
  | some i =>
    match s.sourceElements[i]? with
    | none => none
    | some _ =>
      let s1 := { s with sourceElements := s.sourceElements.eraseIdx i }
      match s1.labelElements[i]? with
      | none => none
      | some _ =>
        let s2 := { s1 with labelElements := s1.labelElements.eraseIdx i }
        some { s2 with val := s2.val.eraseIdx i, activePoint := none }

/-- One iteration of the `removeAllPoints` loop (lines 415-422): splice the
first point, then remove and splice the first marker and the first label. -/
def removeAllIter (s : State) : Option State :=
  let s1 := { s with val := s.val.eraseIdx 0 }
  match s1.sourceElements[0]? with
  | none => none
  | some _ =>
    let s2 := { s1 with sourceElements := s1.sourceElements.eraseIdx 0 }
    match s2.labelElements[0]? with
    | none => none
    | some _ => some { s2 with labelElements := s2.labelElements.eraseIdx 0 }

/-- The `removeAllPoints` loop, run `numberOfPoints` times. -/
def removeAllLoop : ℕ → State → Option State
  | 0, s => some s
  | n + 1, s =>
    match removeAllIter s with
    | none => none
    | some s1 => removeAllLoop n s1

/-- `removeAllPoints` (lines 413-424): `numberOfPoints` is captured before
the loop; `activePoint` is cleared after it. -/
def removeAllPoints (s : State) : Option State :=
  match removeAllLoop s.val.length s with
  | none => none
  | some t => some { t with activePoint := none }

/-- `move` (lines 172-197): while held, overwrite the active point with the
pointer position, clamp, redraw, resync visuals, then transmit.  Also
transmits when no point is active.  Returns the new state and the events
emitted. -/
def move (s : State) : Option (State × List (Option TransmitData)) :=
  if s.clickable then
    if s.clicked then
      match s.activePoint with
      | some i =>
        match s.val[i]? with
        | none => none
        | some p =>
          let s1 := { s with val := s.val.set i ⟨s.mouseX, s.mouseY, p.label, p.colorIndex⟩ }
          match scaleNode s1 with
          | none => none
          | some s2 =>
            match drawEmphasisCircle s2 with
            | none => none
            | some s3 =>
              match s3.val[i]? with
              | none => none
              | some q =>
                match s3.sourceElements[i]? with
                | none => none
                | some se =>
                  match s3.labelElements[i]? with
                  | none => none
                  | some le =>
                    let s4 := { s3 with
                      sourceElements := s3.sourceElements.set i { se with cx := q.x, cy := q.y },
                      labelElements := s3.labelElements.set i
                        { le with x := q.x, y := q.y + s3.nodeSize + 20 } }
                    match processToTransmit s4 with
                    | none => none
                    | some ev => some (s4, ev)
      | none =>
        match processToTransmit s with
        | none => none
        | some ev => some (s, ev)
    else some (s, [])
  else some (s, [])

/-- `click` (lines 151-170): hit-test at the pointer, create a point there
when nothing was hit and creation is enabled, clamp, transmit, then run the
`move` handler.  Returns the new state and all events emitted. -/
def click (s : State) : Option (State × List (Option TransmitData)) :=
  if s.clickable then
    let s1 := setActivePoint s s.mouseX s.mouseY
    let s2opt :=
      if s1.newPointsGeneratable then
        if s1.activePoint = none then
          generateNewPoint s1 s1.mouseX s1.mouseY
            ("Point " ++ toString (s1.val.length + 1)) s1.currentColorIndex
        else some s1
      else some s1
    match s2opt with
    | none => none
    | some s2 =>
      match scaleNode s2 with
      | none => none
      | some s3 =>
        match processToTransmit s3 with
        | none => none
        | some ev1 =>
          match move s3 with
          | none => none
          | some (s4, ev2) => some (s4, ev1 ++ ev2)
  else some (s, [])

/-- Pixel distance of a point from the panel centre `(cx, cy)`. -/
def pixelDist (cx cy : ℝ) (p : Point) : ℝ :=
  Real.sqrt ((p.x - cx) ^ 2 + (p.y - cy) ^ 2)

/-- `(x, y)` lies in the square bounding box of half-width `ns` centred on
the point at index `j` of `l`. -/
def matchAt (ns x y : ℝ) (l : List Point) (j : ℕ) : Prop :=
  ∃ p, l[j]? = some p ∧ |x - p.x| ≤ ns ∧ |y - p.y| ≤ ns

/-- The point collection, the marker array, and the label array have equal
length (the lockstep invariant of §3 of the spec). -/
def lockstep (s : State) : Prop :=
  s.val.length = s.sourceElements.length ∧ s.val.length = s.labelElements.length

/-! ### General lemmas about the embedded operations -/

theorem atan2_mem_Ioc (y x : ℝ) : atan2 y x ∈ Set.Ioc (-Real.pi) Real.pi :=
  Complex.arg_mem_Ioc _

theorem atan2_rmul (R θ : ℝ) (hR : 0 < R) (hθ : θ ∈ Set.Ioc (-Real.pi) Real.pi) :
    atan2 (R * Real.sin θ) (R * Real.cos θ) = θ := by
  unfold atan2
  have h1 : (⟨R * Real.cos θ, R * Real.sin θ⟩ : ℂ)
      = (R : ℂ) * ((Real.cos θ : ℂ) + (Real.sin θ : ℂ) * Complex.I) := by
    apply Complex.ext <;> simp [Complex.cos_ofReal_re, Complex.sin_ofReal_re]
  rw [h1, Complex.arg_real_mul _ hR, Complex.ofReal_cos, Complex.ofReal_sin,
    Complex.arg_cos_add_sin_mul_I hθ]

theorem atan2_zero_nonneg (x : ℝ) (hx : 0 ≤ x) : atan2 0 x = 0 := by
  unfold atan2
  have h1 : (⟨x, 0⟩ : ℂ) = (x : ℂ) := by apply Complex.ext <;> simp
  rw [h1]
  exact Complex.arg_ofReal_of_nonneg hx

theorem lt_length_of_getq_some {α : Type} {l : List α} {i : ℕ} {a : α}
    (h : l[i]? = some a) : i < l.length := by
  by_contra hc
  rw [List.getElem?_eq_none_iff.mpr (Nat.le_of_not_lt hc)] at h
  exact Option.noConfusion h

theorem clampPoint_dist (s : State) (p : Point) (hR : 0 ≤ s.bgRadius) :
    pixelDist s.circleCenterX s.circleCenterY (clampPoint s p) ≤ s.bgRadius := by
  unfold clampPoint pixelDist
  split_ifs with h
  · have hsum : (s.bgRadius * Real.cos (atan2 (p.y - s.circleCenterY) (p.x - s.circleCenterX))
        + s.circleCenterX - s.circleCenterX) ^ 2
        + (s.bgRadius * Real.sin (atan2 (p.y - s.circleCenterY) (p.x - s.circleCenterX))
        + s.circleCenterY - s.circleCenterY) ^ 2 = s.bgRadius ^ 2 := by
      have hpyth := Real.sin_sq_add_cos_sq
        (atan2 (p.y - s.circleCenterY) (p.x - s.circleCenterX))
      nlinarith [hpyth]
    rw [hsum, Real.sqrt_sq hR]
  · push_neg at h
    have h2 : (p.x - s.circleCenterX) ^ 2 + (p.y - s.circleCenterY) ^ 2
        ≤ s.bgRadius ^ 2 := by nlinarith [h]
    calc Real.sqrt ((p.x - s.circleCenterX) ^ 2 + (p.y - s.circleCenterY) ^ 2)
        ≤ Real.sqrt (s.bgRadius ^ 2) := Real.sqrt_le_sqrt h2
      _ = s.bgRadius := Real.sqrt_sq hR

theorem clampPoint_angle (s : State) (p : Point) (hR : 0 < s.bgRadius) :
    atan2 ((clampPoint s p).y - s.circleCenterY) ((clampPoint s p).x - s.circleCenterX)
      = atan2 (p.y - s.circleCenterY) (p.x - s.circleCenterX) := by
  unfold clampPoint
  split_ifs with h
  · simp only
    rw [show s.bgRadius * Real.cos (atan2 (p.y - s.circleCenterY) (p.x - s.circleCenterX))
        + s.circleCenterX - s.circleCenterX
        = s.bgRadius * Real.cos (atan2 (p.y - s.circleCenterY) (p.x - s.circleCenterX)) by ring,
      show s.bgRadius * Real.sin (atan2 (p.y - s.circleCenterY) (p.x - s.circleCenterX))
        + s.circleCenterY - s.circleCenterY
        = s.bgRadius * Real.sin (atan2 (p.y - s.circleCenterY) (p.x - s.circleCenterX)) by ring]
    exact atan2_rmul _ _ hR (atan2_mem_Ioc _ _)
  · rfl

theorem scaleNode_active (s : State) (i : ℕ) (p : Point)
    (hact : s.activePoint = some i) (hp : s.val[i]? = some p) :
    scaleNode s = some { s with val := s.val.set i (clampPoint s p) } := by
  unfold scaleNode
  rw [hact]
  dsimp only
  rw [hp]

theorem scaleNode_fields (s s' : State) (h : scaleNode s = some s') :
    s'.activePoint = s.activePoint ∧ s'.val.length = s.val.length ∧
    s'.sourceElements = s.sourceElements ∧ s'.labelElements = s.labelElements ∧
    s'.circleCenterX = s.circleCenterX ∧ s'.circleCenterY = s.circleCenterY ∧
    s'.bgRadius = s.bgRadius ∧ s'.nodeSize = s.nodeSize ∧ s'.meterScale = s.meterScale ∧
    s'.listenerPoint = s.listenerPoint ∧ s'.transmitMode = s.transmitMode ∧
    s'.clickable = s.clickable ∧ s'.clicked = s.clicked ∧ s'.mouseX = s.mouseX ∧
    s'.mouseY = s.mouseY := by
  unfold scaleNode at h
  cases hact : s.activePoint with
  | none =>
    rw [hact] at h
    injection h with h
    subst h
    simp [hact]
  | some i =>
    rw [hact] at h
    dsimp only at h
    cases hp : s.val[i]? with
    | none => rw [hp] at h; exact Option.noConfusion h
    | some p =>
      rw [hp] at h
      injection h with h
      subst h
      simp [hact]

/-! ### Claim theorems -/

/-- C1: for every widget state with an active point (and a genuine boundary
circle, `0 < bgRadius`), `scaleNode` succeeds, and afterwards the active
point's pixel distance from the panel centre is at most `bgRadius`; when
clamping changed the point's coordinates, the clamped point keeps its
pre-clamp `atan2` direction from the centre. -/
theorem scaleNode_clamps_within_radius_same_angle (s : State) (i : ℕ) (p : Point)
    (hR : 0 < s.bgRadius) (hact : s.activePoint = some i) (hp : s.val[i]? = some p) :
    ∃ s' q, scaleNode s = some s' ∧ s'.val[i]? = some q ∧
      pixelDist s.circleCenterX s.circleCenterY q ≤ s.bgRadius ∧
      ((q.x, q.y) ≠ (p.x, p.y) →
        atan2 (q.y - s.circleCenterY) (q.x - s.circleCenterX)
          = atan2 (p.y - s.circleCenterY) (p.x - s.circleCenterX)) := by
  refine ⟨_, clampPoint s p, scaleNode_active s i p hact hp, ?_, ?_, ?_⟩
  · exact List.getElem?_set_eq_of_lt _ (lt_length_of_getq_some hp)
  · exact clampPoint_dist s p hR.le
  · intro _
    exact clampPoint_angle s p hR

/-- A widget state with one point placed well beyond the boundary circle. -/
def c1S : State :=
  { mkState 700 700 with val := [⟨350, 0, "P", 0⟩], activePoint := some 0 }

/-- Witness for C1 at a concrete state: the single point at `(350, 0)` is
340 px above the centre of the default 700×700 widget and gets clamped. -/
theorem scaleNode_clamps_within_radius_same_angle_witness :
    0 < c1S.bgRadius ∧
    ∃ s' q, scaleNode c1S = some s' ∧ s'.val[0]? = some q ∧
      pixelDist c1S.circleCenterX c1S.circleCenterY q ≤ c1S.bgRadius ∧
      ((q.x, q.y) ≠ (((⟨350, 0, "P", 0⟩ : Point)).x, ((⟨350, 0, "P", 0⟩ : Point)).y) →
        atan2 (q.y - c1S.circleCenterY) (q.x - c1S.circleCenterX)
          = atan2 (((⟨350, 0, "P", 0⟩ : Point)).y - c1S.circleCenterY)
              (((⟨350, 0, "P", 0⟩ : Point)).x - c1S.circleCenterX)) :=
  ⟨by norm_num [c1S, mkState],
   scaleNode_clamps_within_radius_same_angle c1S 0 ⟨350, 0, "P", 0⟩
     (by norm_num [c1S, mkState]) rfl rfl⟩

/-- C4: in transmit mode 1 (the default "active-only" mode), a state with no
active point emits no `change` event at all, and a state whose active index
addresses a point emits exactly one event, whose payload carries that
point's index together with its distance and angle relative to the listener
point placed at the panel centre. -/
theorem processToTransmit_mode1 (s : State) (h1 : s.transmitMode = 1) :
    (s.activePoint = none → processToTransmit s = some []) ∧
    (∀ i p, s.activePoint = some i → s.val[i]? = some p →
      processToTransmit s = some [some (TransmitData.single i
        (calculateAngle s p) (calculateDistance s s.listenerPoint p))]) := by
  constructor
  · intro hact
    unfold processToTransmit
    rw [h1, hact]
    simp
  · intro i p hact hp
    unfold processToTransmit
    rw [h1, hact]
    simp [hp]

/-- Witness for C4: the freshly constructed widget is in mode 1 with no
active point, and emits nothing. -/
theorem processToTransmit_mode1_witness :
    (mkState 700 700).transmitMode = 1 ∧ processToTransmit (mkState 700 700) = some [] :=
  ⟨rfl, (processToTransmit_mode1 (mkState 700 700) rfl).1 rfl⟩

/-- C5: in transmit mode 0 ("all"), `processToTransmit` emits exactly one
event whose `distances` and `angles` arrays both have the collection's
length and list, in collection order, each point's distance and angle
relative to the listener. -/
theorem processToTransmit_mode0 (s : State) (h0 : s.transmitMode = 0) :
    processToTransmit s = some [some (TransmitData.all
      (s.val.map (calculateAngle s)) (s.val.map (calculateDistance s s.listenerPoint)))] ∧
    (s.val.map (calculateAngle s)).length = s.val.length ∧
    (s.val.map (calculateDistance s s.listenerPoint)).length = s.val.length ∧
    (∀ (i : ℕ) (p : Point), s.val[i]? = some p →
      (s.val.map (calculateDistance s s.listenerPoint))[i]?
          = some (calculateDistance s s.listenerPoint p) ∧
      (s.val.map (calculateAngle s))[i]? = some (calculateAngle s p)) := by
  refine ⟨?_, by simp, by simp, ?_⟩
  · unfold processToTransmit
    rw [h0]
    simp
  · intro i p hp
    refine ⟨?_, ?_⟩ <;> simp [List.getElem?_map, hp]

/-- Witness for C5: a constructor state switched to mode 0 emits the event
with two (empty) parallel arrays. -/
theorem processToTransmit_mode0_witness :
    ({ mkState 700 700 with transmitMode := 0 } : State).transmitMode = 0 ∧
    processToTransmit { mkState 700 700 with transmitMode := 0 }
      = some [some (TransmitData.all [] [])] :=
  ⟨rfl, (processToTransmit_mode0 { mkState 700 700 with transmitMode := 0 } rfl).1⟩

/-- C8 counterexample: on the freshly constructed widget (empty collection),
`moveExistingPoint` with index 0 — an out-of-range index — does not leave
the state unchanged: `this.val[0].x = …` throws a `TypeError` (modelled as
`none`), so the operation is not a defensive no-op. -/
theorem moveExistingPoint_out_of_range_throws :
    moveExistingPoint (mkState 700 700) 0 1 90 = none ∧
    moveExistingPoint (mkState 700 700) 0 1 90 ≠ some (mkState 700 700) := by
  constructor
  · rfl
  · intro h
    exact Option.noConfusion h

/-- C8 (amended): `changeColorIndexOfActivePoint` with no active point is a
genuine no-op, but `moveExistingPoint` performs no bounds check: for every
state and every index at or beyond the collection length it throws
(`none`) instead of being ignored. -/
theorem color_noop_but_move_unchecked :
    (∀ (s : State) (c : ℕ), s.activePoint = none →
      changeColorIndexOfActivePoint s c = some s) ∧
    (∀ (s : State) (i : ℕ) (d a : ℝ), s.val.length ≤ i →
      moveExistingPoint s i d a = none) := by
  constructor
  · intro s c hact
    unfold changeColorIndexOfActivePoint
    rw [hact]
  · intro s i d a hlen
    unfold moveExistingPoint
    rw [List.getElem?_eq_none_iff.mpr hlen]

/-- Witness for C8 (amended) at concrete inputs: the fresh widget has no
active point and an empty collection. -/
theorem color_noop_but_move_unchecked_witness :
    (mkState 700 700).activePoint = none ∧
    changeColorIndexOfActivePoint (mkState 700 700) 3 = some (mkState 700 700) ∧
    (mkState 700 700).val.length ≤ 5 ∧
    moveExistingPoint (mkState 700 700) 5 2 45 = none :=
  ⟨rfl, color_noop_but_move_unchecked.1 (mkState 700 700) 3 rfl,
   by simp [mkState], color_noop_but_move_unchecked.2 (mkState 700 700) 5 2 45 (by simp [mkState])⟩

theorem atan2_zero_x_neg_y (y : ℝ) (hy : y < 0) : atan2 y 0 = -(Real.pi / 2) := by
  unfold atan2
  have h : (⟨(0 : ℝ), y⟩ : ℂ) = ((-y : ℝ) : ℂ) * (-Complex.I) := by
    apply Complex.ext <;> simp
  rw [h, Complex.arg_real_mul _ (by linarith), Complex.arg_neg_I]

/-- A widget state whose `headOrientation` was set to 720 with
head-relative angles enabled (both are public mutable fields). -/
def c7S : State :=
  { mkState 700 700 with angleRelativeToHead := true, headOrientation := 720 }

/-- C7 counterexample: with `angleRelativeToHead` set and
`headOrientation = 720`, the point straight above the centre gets angle
`0 - 720 = -720`, and the single `+360` renormalisation leaves `-360`,
which is not in `[0, 360)`: the claim fails for this value of
`headOrientation`. -/
theorem calculateAngle_out_of_range_for_large_head :
    calculateAngle c7S ⟨350, 50, "P", 0⟩ = -360 ∧
    ¬ (0 ≤ calculateAngle c7S ⟨350, 50, "P", 0⟩ ∧
       calculateAngle c7S ⟨350, 50, "P", 0⟩ < 360) := by
  have hpi := Real.pi_ne_zero
  have hA : atan2 ((50 : ℝ) - 700 / 2) ((350 : ℝ) - 700 / 2) = -(Real.pi / 2) := by
    norm_num
    rw [atan2_zero_x_neg_y (-300) (by norm_num)]
  have hdeg : -(Real.pi / 2) * 180 / Real.pi = -90 := by
    field_simp
    ring
  have h0 : calculateAngle c7S ⟨350, 50, "P", 0⟩ = -360 := by
    unfold calculateAngle c7S mkState
    simp only
    rw [hA, hdeg]
    norm_num
  refine ⟨h0, ?_⟩
  rw [h0]
  intro h
  linarith [h.1]

/-- C7 (amended): `calculateAngle` lands in `[0, 360)` for every point and
every state in which `headOrientation` lies in `[0, 360]` whenever
head-relative angles are enabled (with `headOrientation` outside that
range the single `+360` renormalisation is not enough); with the flag off
the result is unconditionally in `[0, 360)`. -/
theorem calculateAngle_in_range (s : State) (p : Point)
    (hh : s.angleRelativeToHead = true →
      0 ≤ s.headOrientation ∧ s.headOrientation ≤ 360) :
    0 ≤ calculateAngle s p ∧ calculateAngle s p < 360 := by
  have hpi := Real.pi_pos
  obtain ⟨hgt, hle⟩ := atan2_mem_Ioc (p.y - s.circleCenterY) (p.x - s.circleCenterX)
  unfold calculateAngle
  have hA1 : atan2 (p.y - s.circleCenterY) (p.x - s.circleCenterX) * 180 / Real.pi ≤ 180 := by
    rw [div_le_iff hpi]
    nlinarith
  have hA2 : -180 < atan2 (p.y - s.circleCenterY) (p.x - s.circleCenterX) * 180 / Real.pi := by
    rw [lt_div_iff hpi]
    nlinarith
  rcases Bool.eq_false_or_eq_true s.angleRelativeToHead with hrel | hrel
  · obtain ⟨hh1, hh2⟩ := hh hrel
    simp only [hrel]
    split_ifs <;> constructor <;> linarith
  · simp only [hrel, Bool.false_eq_true, if_false]
    split_ifs <;> constructor <;> linarith

/-- Witness for C7 (amended) at a concrete state with head-relative angles
on and `headOrientation = 90`. -/
theorem calculateAngle_in_range_witness :
    (({ mkState 700 700 with angleRelativeToHead := true, headOrientation := 90 } : State).angleRelativeToHead = true →
      0 ≤ ({ mkState 700 700 with angleRelativeToHead := true, headOrientation := 90 } : State).headOrientation ∧
      ({ mkState 700 700 with angleRelativeToHead := true, headOrientation := 90 } : State).headOrientation ≤ 360) ∧
    (0 ≤ calculateAngle { mkState 700 700 with angleRelativeToHead := true, headOrientation := 90 } ⟨350, 50, "P", 0⟩ ∧
     calculateAngle { mkState 700 700 with angleRelativeToHead := true, headOrientation := 90 } ⟨350, 50, "P", 0⟩ < 360) :=
  ⟨fun _ => by norm_num,
   calculateAngle_in_range _ ⟨350, 50, "P", 0⟩ (fun _ => by norm_num)⟩

theorem box_iff_abs (ns x y : ℝ) (p : Point) :
    (x ≤ p.x + ns ∧ x ≥ p.x - ns ∧ y ≤ p.y + ns ∧ y ≥ p.y - ns) ↔
    (|x - p.x| ≤ ns ∧ |y - p.y| ≤ ns) := by
  rw [abs_sub_le_iff, abs_sub_le_iff]
  constructor
  · rintro ⟨h1, h2, h3, h4⟩
    exact ⟨⟨by linarith, by linarith⟩, by linarith, by linarith⟩
  · rintro ⟨⟨h1, h2⟩, h3, h4⟩
    exact ⟨by linarith, by linarith, by linarith, by linarith⟩

theorem matchAt_zero (ns x y : ℝ) (p : Point) (l : List Point) :
    matchAt ns x y (p :: l) 0 ↔ (|x - p.x| ≤ ns ∧ |y - p.y| ≤ ns) := by
  simp [matchAt]

theorem matchAt_succ (ns x y : ℝ) (p : Point) (l : List Point) (j : ℕ) :
    matchAt ns x y (p :: l) (j + 1) ↔ matchAt ns x y l j := by
  simp [matchAt]

theorem matchAt_nil (ns x y : ℝ) (j : ℕ) : ¬ matchAt ns x y [] j := by
  simp [matchAt]

theorem hitLoop_of_no_match (ns x y : ℝ) (l : List Point) :
    ∀ (i0 : ℕ) (temp : Option ℕ), (∀ j, ¬ matchAt ns x y l j) →
      hitLoop ns x y l i0 temp = temp := by
  induction l with
  | nil => intro i0 temp _; rfl
  | cons p rest ih =>
    intro i0 temp h
    unfold hitLoop
    rw [if_neg fun hb => h 0 ((matchAt_zero ns x y p rest).mpr ((box_iff_abs ns x y p).mp hb))]
    exact ih (i0 + 1) temp fun j hj => h (j + 1) ((matchAt_succ ns x y p rest j).mpr hj)

theorem hitLoop_isSome_of_temp (ns x y : ℝ) (l : List Point) :
    ∀ (i0 k : ℕ), ∃ r, hitLoop ns x y l i0 (some k) = some r := by
  induction l with
  | nil => intro i0 k; exact ⟨k, rfl⟩
  | cons p rest ih =>
    intro i0 k
    unfold hitLoop
    by_cases hb : x ≤ p.x + ns ∧ x ≥ p.x - ns ∧ y ≤ p.y + ns ∧ y ≥ p.y - ns
    · rw [if_pos hb]
      exact ih (i0 + 1) i0
    · rw [if_neg hb]
      exact ih (i0 + 1) k

theorem hitLoop_isSome_of_match (ns x y : ℝ) (l : List Point) :
    ∀ (i0 : ℕ) (temp : Option ℕ) (j : ℕ), matchAt ns x y l j →
      ∃ r, hitLoop ns x y l i0 temp = some r := by
  induction l with
  | nil => intro i0 temp j hm; exact absurd hm (matchAt_nil ns x y j)
  | cons p rest ih =>
    intro i0 temp j hm
    unfold hitLoop
    by_cases hb : x ≤ p.x + ns ∧ x ≥ p.x - ns ∧ y ≤ p.y + ns ∧ y ≥ p.y - ns
    · rw [if_pos hb]
      exact hitLoop_isSome_of_temp ns x y rest (i0 + 1) i0
    · rw [if_neg hb]
      cases j with
      | zero =>
        exact absurd ((box_iff_abs ns x y p).mpr ((matchAt_zero ns x y p rest).mp hm)) hb
      | succ j =>
        exact ih (i0 + 1) temp j ((matchAt_succ ns x y p rest j).mp hm)

theorem hitLoop_eq_of_max_match (ns x y : ℝ) (l : List Point) :
    ∀ (i0 : ℕ) (temp : Option ℕ) (j : ℕ), matchAt ns x y l j →
      (∀ j', j < j' → ¬ matchAt ns x y l j') →
      hitLoop ns x y l i0 temp = some (i0 + j) := by
  induction l with
  | nil => intro i0 temp j hm _; exact absurd hm (matchAt_nil ns x y j)
  | cons p rest ih =>
    intro i0 temp j hm hmax
    unfold hitLoop
    cases j with
    | zero =>
      rw [if_pos ((box_iff_abs ns x y p).mpr ((matchAt_zero ns x y p rest).mp hm))]
      rw [hitLoop_of_no_match ns x y rest (i0 + 1) (some i0)
        fun j hj => hmax (j + 1) (Nat.succ_pos j) ((matchAt_succ ns x y p rest j).mpr hj)]
      congr 1
    | succ j =>
      have h1 := ih (i0 + 1)
        (if x ≤ p.x + ns ∧ x ≥ p.x - ns ∧ y ≤ p.y + ns ∧ y ≥ p.y - ns then some i0 else temp)
        j ((matchAt_succ ns x y p rest j).mp hm)
        fun j' hj' hm' => hmax (j' + 1) (Nat.succ_lt_succ hj') ((matchAt_succ ns x y p rest j').mpr hm')
      rw [h1]
      congr 1
      omega

theorem hitLoop_some_inv (ns x y : ℝ) (l : List Point) :
    ∀ (i0 : ℕ) (temp : Option ℕ) (r : ℕ), hitLoop ns x y l i0 temp = some r →
      (∃ j, r = i0 + j ∧ matchAt ns x y l j ∧ ∀ j', j < j' → ¬ matchAt ns x y l j') ∨
      (temp = some r ∧ ∀ j, ¬ matchAt ns x y l j) := by
  induction l with
  | nil =>
    intro i0 temp r h
    exact Or.inr ⟨h, fun j => matchAt_nil ns x y j⟩
  | cons p rest ih =>
    intro i0 temp r h
    unfold hitLoop at h
    by_cases hb : x ≤ p.x + ns ∧ x ≥ p.x - ns ∧ y ≤ p.y + ns ∧ y ≥ p.y - ns
    · rw [if_pos hb] at h
      rcases ih (i0 + 1) (some i0) r h with ⟨j, hr, hm, hmax⟩ | ⟨htemp, hnone⟩
      · refine Or.inl ⟨j + 1, by omega, (matchAt_succ ns x y p rest j).mpr hm, ?_⟩
        intro j' hj' hm'
        cases j' with
        | zero => omega
        | succ j'' => exact hmax j'' (by omega) ((matchAt_succ ns x y p rest j'').mp hm')
      · injection htemp with htemp
        refine Or.inl ⟨0, by omega,
          (matchAt_zero ns x y p rest).mpr ((box_iff_abs ns x y p).mp hb), ?_⟩
        intro j' hj' hm'
        cases j' with
        | zero => omega
        | succ j'' => exact hnone j'' ((matchAt_succ ns x y p rest j'').mp hm')
    · rw [if_neg hb] at h
      rcases ih (i0 + 1) temp r h with ⟨j, hr, hm, hmax⟩ | ⟨htemp, hnone⟩
      · refine Or.inl ⟨j + 1, by omega, (matchAt_succ ns x y p rest j).mpr hm, ?_⟩
        intro j' hj' hm'
        cases j' with
        | zero => omega
        | succ j'' => exact hmax j'' (by omega) ((matchAt_succ ns x y p rest j'').mp hm')
      · refine Or.inr ⟨htemp, ?_⟩
        intro j hm'
        cases j with
        | zero =>
          exact hb ((box_iff_abs ns x y p).mpr ((matchAt_zero ns x y p rest).mp hm'))
        | succ j'' => exact hnone j'' ((matchAt_succ ns x y p rest j'').mp hm')

/-- C6: the hit test (`setActivePoint`) selects exactly the highest index
whose square bounding box of half-width `nodeSize` contains `(x, y)`,
selects nothing when no point's box contains `(x, y)`, and is idempotent:
re-running it on the resulting state returns the identical state. -/
theorem setActivePoint_spec (s : State) (x y : ℝ) :
    (∀ i : ℕ, (setActivePoint s x y).activePoint = some i ↔
      (matchAt s.nodeSize x y s.val i ∧ ∀ j, i < j → ¬ matchAt s.nodeSize x y s.val j)) ∧
    ((setActivePoint s x y).activePoint = none ↔
      ∀ j, ¬ matchAt s.nodeSize x y s.val j) ∧
    setActivePoint (setActivePoint s x y) x y = setActivePoint s x y := by
  refine ⟨?_, ⟨?_, ?_⟩, rfl⟩
  · intro i
    constructor
    · intro h
      simp only [setActivePoint] at h
      rcases hitLoop_some_inv s.nodeSize x y s.val 0 none i h with ⟨j, hr, hm, hmax⟩ | ⟨htemp, _⟩
      · have : i = j := by omega
        subst this
        exact ⟨hm, hmax⟩
      · exact Option.noConfusion htemp
    · rintro ⟨hm, hmax⟩
      simp only [setActivePoint]
      have h1 := hitLoop_eq_of_max_match s.nodeSize x y s.val 0 none i hm hmax
      rwa [Nat.zero_add] at h1
  · intro h j hm
    obtain ⟨r, hr⟩ := hitLoop_isSome_of_match s.nodeSize x y s.val 0 none j hm
    simp only [setActivePoint] at h
    rw [h] at hr
    exact Option.noConfusion hr
  · intro h
    simp only [setActivePoint]
    exact hitLoop_of_no_match s.nodeSize x y s.val 0 none h

/-- Witness for C6 at a concrete state: on the fresh (empty) widget the hit
test at `(10, 10)` selects nothing, and re-running it is the identity. -/
theorem setActivePoint_spec_witness :
    (∀ j, ¬ matchAt (mkState 700 700).nodeSize 10 10 (mkState 700 700).val j) ∧
    (setActivePoint (mkState 700 700) 10 10).activePoint = none ∧
    setActivePoint (setActivePoint (mkState 700 700) 10 10) 10 10
      = setActivePoint (mkState 700 700) 10 10 :=
  ⟨fun j => by simp [matchAt, mkState],
   (setActivePoint_spec (mkState 700 700) 10 10).2.1.mpr
     (fun j => by simp [matchAt, mkState]),
   (setActivePoint_spec (mkState 700 700) 10 10).2.2⟩

theorem scaleNode_within_radius (t t' : State) (i : ℕ) (hR : 0 ≤ t.bgRadius)
    (hact : t.activePoint = some i) (hex : (t.val[i]?).isSome)
    (h : scaleNode t = some t') :
    ∃ q, t'.val[i]? = some q ∧
      pixelDist t'.circleCenterX t'.circleCenterY q ≤ t'.bgRadius := by
  cases hp : t.val[i]? with
  | none => rw [hp] at hex; simp at hex
  | some p =>
    rw [scaleNode_active t i p hact hp] at h
    injection h with h
    subst h
    refine ⟨clampPoint t p, ?_, ?_⟩
    · exact List.getElem?_set_eq_of_lt _ (lt_length_of_getq_some hp)
    · exact clampPoint_dist t p hR

/-- C2 (amended): `moveExistingPoint` keeps the boundary invariant for the
point it moves only when that point is the active one: for every state with
`activePoint = i` and `0 ≤ bgRadius`, a successful `moveExistingPoint` at
index `i` leaves the point at `i` within `bgRadius` of the panel centre.
(The final `scaleNode` clamps the active point, not the moved index, so the
invariant can break for other indices — see the counterexample.) -/
theorem moveExistingPoint_active_within_radius (s : State) (i : ℕ) (d a : ℝ)
    (s' : State) (hR : 0 ≤ s.bgRadius) (hact : s.activePoint = some i)
    (hm : moveExistingPoint s i d a = some s') :
    ∃ q, s'.val[i]? = some q ∧
      pixelDist s'.circleCenterX s'.circleCenterY q ≤ s'.bgRadius := by
  unfold moveExistingPoint at hm
  cases hp : s.val[i]? with
  | none => rw [hp] at hm; exact Option.noConfusion hm
  | some p =>
    rw [hp] at hm
    dsimp only at hm
    have hilen : i < s.val.length := lt_length_of_getq_some hp
    cases hse : s.sourceElements[i]? with
    | none => rw [hse] at hm; exact Option.noConfusion hm
    | some se =>
      rw [hse] at hm
      dsimp only at hm
      cases hle : s.labelElements[i]? with
      | none => rw [hle] at hm; exact Option.noConfusion hm
      | some le =>
        rw [hle] at hm
        dsimp only at hm
        refine scaleNode_within_radius _ _ i ?_ ?_ ?_ hm
        · exact hR
        · exact hact
        · simp [List.getElem?_set_eq_of_lt _ hilen]

/-- A reachable two-point state: two points are created interactively, the
second one (index 1) stays active, and then the programmatic API moves
point 0 ten metres (1000 px) away. -/
def c2Run : Option State :=
  (generateNewPoint (mkState 700 700) 350 200 "Point 1" 0).bind fun s1 =>
    (generateNewPoint s1 350 500 "Point 2" 0).bind fun s2 =>
      moveExistingPoint s2 0 100 90

/-- C2 counterexample: in the reachable state built by `c2Run`, point 0
sits at `(10350, 350)` — 10000 px from the panel centre `(350, 350)`,
far beyond the 300 px boundary radius — because `moveExistingPoint(0, …)`
re-clamped only the active point (index 1).  The claimed invariant fails. -/
theorem moveExistingPoint_escapes_boundary :
    c2Run.map (fun t => (t.circleCenterX, t.circleCenterY, t.bgRadius,
        t.val.map fun p => (p.x, p.y)))
      = some (350, 350, 300, [(10350, 350), (350, 500)]) ∧
    ¬ Real.sqrt (((10350 : ℝ) - 350) ^ 2 + ((350 : ℝ) - 350) ^ 2) ≤ 300 := by
  constructor
  · norm_num [c2Run, generateNewPoint, moveExistingPoint, setActivePoint, scaleNode,
      clampPoint, hitLoop, toPanelCoords, polToCar, convertToPixels, mkState,
      Real.cos_zero, Real.sin_zero, min_self]
  · rw [show ((10350 : ℝ) - 350) ^ 2 + ((350 : ℝ) - 350) ^ 2 = 10000 ^ 2 by norm_num,
      Real.sqrt_sq (by norm_num : (0:ℝ) ≤ 10000)]
    norm_num

/-- A one-point widget state with the point active, for the C2 witness. -/
def c2WS : State :=
  { mkState 700 700 with
    val := [⟨350, 350, "P", 0⟩],
    sourceElements := [⟨350, 350, 30, "0.5", some "#845ec2", "none"⟩],
    labelElements := [⟨350, 400, "black", "middle", "P"⟩],
    activePoint := some 0 }

/-- The state `moveExistingPoint c2WS 0 1 90` produces. -/
def c2WS' : State :=
  { c2WS with
    val := [⟨450, 350, "P", 0⟩],
    sourceElements := [⟨450, 350, 30, "0.5", some "#845ec2", "none"⟩],
    labelElements := [⟨450, 400, "black", "middle", "P"⟩] }

/-- Witness for C2 (amended): moving the active point one metre east lands
it 100 px from the centre, within the 300 px boundary. -/
theorem moveExistingPoint_active_within_radius_witness :
    0 ≤ c2WS.bgRadius ∧ c2WS.activePoint = some 0 ∧
    ∃ q, c2WS'.val[0]? = some q ∧
      pixelDist c2WS'.circleCenterX c2WS'.circleCenterY q ≤ c2WS'.bgRadius :=
  have hm : moveExistingPoint c2WS 0 1 90 = some c2WS' := by
    norm_num [c2WS, c2WS', mkState, moveExistingPoint, toPanelCoords, polToCar,
      convertToPixels, scaleNode, clampPoint, min_self, Real.cos_zero, Real.sin_zero]
  ⟨by norm_num [c2WS, mkState, min_self], rfl,
   moveExistingPoint_active_within_radius c2WS 0 1 90 c2WS'
     (by norm_num [c2WS, mkState, min_self]) rfl hm⟩

theorem generateNewPoint_lockstep (s : State) (x y : ℝ) (lbl : String) (ci : ℕ)
    (s' : State) (hls : lockstep s) (h : generateNewPoint s x y lbl ci = some s') :
    lockstep s' := by
  unfold generateNewPoint at h
  dsimp only at h
  cases hsn : scaleNode (setActivePoint { s with val := s.val ++ [⟨x, y, lbl, ci⟩] } x y) with
  | none => rw [hsn] at h; exact Option.noConfusion h
  | some s3 =>
    rw [hsn] at h
    dsimp only at h
    cases hact : s3.activePoint with
    | none => rw [hact] at h; exact Option.noConfusion h
    | some i =>
      rw [hact] at h
      dsimp only at h
      cases hp : s3.val[i]? with
      | none => rw [hp] at h; exact Option.noConfusion h
      | some p =>
        rw [hp] at h
        injection h with h
        subst h
        obtain ⟨-, hlen, hsrc, hlab, -⟩ := scaleNode_fields _ _ hsn
        have hval : s3.val.length = s.val.length + 1 := by
          rw [hlen]
          simp [setActivePoint]
        constructor
        · show s3.val.length = (s3.sourceElements ++ _).length
          rw [hval, hsrc]
          simp [setActivePoint, hls.1]
        · show s3.val.length = (s3.labelElements ++ _).length
          rw [hval, hlab]
          simp [setActivePoint, hls.2]

theorem removeActivePoint_lockstep (s s' : State) (hls : lockstep s)
    (h : removeActivePoint s = some s') : lockstep s' := by
  unfold removeActivePoint at h
  cases hact : s.activePoint with
  | none =>
    rw [hact] at h
    injection h with h
    subst h
    exact hls
  | some i =>
    rw [hact] at h
    dsimp only at h
    cases hse : s.sourceElements[i]? with
    | none => rw [hse] at h; exact Option.noConfusion h
    | some se =>
      rw [hse] at h
      dsimp only at h
      cases hle : s.labelElements[i]? with
      | none => rw [hle] at h; exact Option.noConfusion h
      | some le =>
        rw [hle] at h
        injection h with h
        subst h
        have hi1 : i < s.sourceElements.length := lt_length_of_getq_some hse
        have hi2 : i < s.labelElements.length := lt_length_of_getq_some hle
        have hi0 : i < s.val.length := by rw [hls.1]; exact hi1
        constructor
        · show (s.val.eraseIdx i).length = (s.sourceElements.eraseIdx i).length
          rw [List.length_eraseIdx, List.length_eraseIdx]
          simp [hi0, hi1, hls.1]
        · show (s.val.eraseIdx i).length = (s.labelElements.eraseIdx i).length
          rw [List.length_eraseIdx, List.length_eraseIdx]
          simp [hi0, hi2, hls.2]

theorem removeAllIter_step (s : State) (e : SourceElem) (es : List SourceElem)
    (f : LabelElem) (fs : List LabelElem)
    (hes : s.sourceElements = e :: es) (hfs : s.labelElements = f :: fs) :
    removeAllIter s = some
      { s with val := s.val.eraseIdx 0, sourceElements := es, labelElements := fs } := by
  unfold removeAllIter
  simp [hes, hfs]

theorem removeAllLoop_empties : ∀ (n : ℕ) (s : State),
    s.val.length = n → s.sourceElements.length = n → s.labelElements.length = n →
    ∃ s', removeAllLoop n s = some s' ∧ s'.val = [] ∧ s'.sourceElements = [] ∧
      s'.labelElements = [] ∧ s'.activePoint = s.activePoint := by
  intro n
  induction n with
  | zero =>
    intro s h1 h2 h3
    exact ⟨s, rfl, List.eq_nil_of_length_eq_zero h1,
      List.eq_nil_of_length_eq_zero h2, List.eq_nil_of_length_eq_zero h3, rfl⟩
  | succ n ih =>
    intro s h1 h2 h3
    obtain ⟨e, es, hes⟩ : ∃ e es, s.sourceElements = e :: es := by
      cases hc : s.sourceElements with
      | nil => rw [hc] at h2; exact absurd h2 (by simp)
      | cons a l => exact ⟨a, l, rfl⟩
    obtain ⟨f, fs, hfs⟩ : ∃ f fs, s.labelElements = f :: fs := by
      cases hc : s.labelElements with
      | nil => rw [hc] at h3; exact absurd h3 (by simp)
      | cons a l => exact ⟨a, l, rfl⟩
    unfold removeAllLoop
    rw [removeAllIter_step s e es f fs hes hfs]
    obtain ⟨s', hs', hv, hsrc, hlab, hap⟩ := ih
      { s with val := s.val.eraseIdx 0, sourceElements := es, labelElements := fs }
      (by simp [List.length_eraseIdx, h1])
      (by simpa [hes] using h2)
      (by simpa [hfs] using h3)
    exact ⟨s', hs', hv, hsrc, hlab, hap⟩

/-- C9: point creation (`generateNewPoint`), removal of the active point,
and removal of all points each preserve the lockstep invariant (the point
collection, the marker array, and the label array have pairwise equal
length); and on every lockstep state `removeAllPoints` succeeds and leaves
an empty collection, no active index, and no residual visual primitives. -/
theorem lockstep_preserved :
    (∀ (s : State) (x y : ℝ) (lbl : String) (ci : ℕ) (s' : State), lockstep s →
      generateNewPoint s x y lbl ci = some s' → lockstep s') ∧
    (∀ (s s' : State), lockstep s → removeActivePoint s = some s' → lockstep s') ∧
    (∀ s : State, lockstep s → ∃ s', removeAllPoints s = some s' ∧
      s'.val = [] ∧ s'.sourceElements = [] ∧ s'.labelElements = [] ∧
      s'.activePoint = none ∧ lockstep s') := by
  refine ⟨fun s x y lbl ci s' hls h => generateNewPoint_lockstep s x y lbl ci s' hls h,
    fun s s' hls h => removeActivePoint_lockstep s s' hls h, ?_⟩
  intro s hls
  obtain ⟨t, ht, h1, h2, h3, -⟩ :=
    removeAllLoop_empties s.val.length s rfl hls.1.symm hls.2.symm
  unfold removeAllPoints
  rw [ht]
  exact ⟨{ t with activePoint := none }, rfl, h1, h2, h3, rfl,
    by constructor <;> simp [h1, h2, h3]⟩

/-- A lockstep state with five points, five markers, and five labels. -/
def c9S : State :=
  { mkState 700 700 with
    val := List.replicate 5 ⟨350, 350, "P", 0⟩,
    sourceElements := List.replicate 5 ⟨350, 350, 30, "0.5", some "#845ec2", "none"⟩,
    labelElements := List.replicate 5 ⟨350, 400, "black", "middle", "P"⟩ }

/-- Witness for C9: removing all of the five points leaves the collection,
markers, and labels empty, with no active index. -/
theorem lockstep_preserved_witness :
    lockstep c9S ∧ ∃ s', removeAllPoints c9S = some s' ∧
      s'.val = [] ∧ s'.sourceElements = [] ∧ s'.labelElements = [] ∧
      s'.activePoint = none ∧ lockstep s' :=
  have hls : lockstep c9S := by constructor <;> simp [c9S, mkState]
  ⟨hls, lockstep_preserved.2.2 c9S hls⟩

theorem atan2_zero_zero : atan2 0 0 = 0 := by
  unfold atan2
  have h : (⟨(0 : ℝ), (0 : ℝ)⟩ : ℂ) = 0 := by apply Complex.ext <;> simp
  rw [h, Complex.arg_zero]

/-- C3 counterexample: the claim includes distance `d = 0`, but the
conversion sends `(0, 0)` to the exact panel centre, and reading the angle
back there yields `atan2(0, 0) = 0`, i.e. a final angle of 90 — not the
original 0.  The round trip fails at distance zero. -/
theorem roundTrip_fails_at_zero_distance :
    toPanelCoords (mkState 700 700) 0 0 = (350, 350) ∧
    calculateAngle (mkState 700 700) ⟨350, 350, "S1", 0⟩ = 90 ∧ (90 : ℝ) ≠ 0 := by
  refine ⟨?_, ?_, by norm_num⟩
  · norm_num [toPanelCoords, polToCar, convertToPixels, mkState]
  · norm_num [calculateAngle, mkState, atan2_zero_zero]

/-- C3 (amended): for every distance `d > 0` (zero excluded) and angle
`a ∈ [0, 360)`, converting `(d, a)` to panel coordinates exactly as
`addNewPoint` does (−90° adjustment with its wrap, `polToCar`, pixel
scaling by `meterScale`, translation by the panel centre) and applying the
inverse computations (`calculateDistance` from the listener and
`calculateAngle`, with head-relative angles off) returns exactly `(d, a)`.
Holds for every state whose listener sits at the panel centre and whose
`meterScale` is positive, as the constructor guarantees. -/
theorem toPanelCoords_roundTrip (s : State) (d a : ℝ) (lbl : String) (ci : ℕ)
    (hd : 0 < d) (ha0 : 0 ≤ a) (ha1 : a < 360)
    (hrel : s.angleRelativeToHead = false) (hms : 0 < s.meterScale)
    (hlx : s.listenerPoint.x = s.circleCenterX)
    (hly : s.listenerPoint.y = s.circleCenterY) :
    calculateDistance s s.listenerPoint
      ⟨(toPanelCoords s d a).1, (toPanelCoords s d a).2, lbl, ci⟩ = d ∧
    calculateAngle s
      ⟨(toPanelCoords s d a).1, (toPanelCoords s d a).2, lbl, ci⟩ = a := by
  have hpi := Real.pi_pos
  have hco : toPanelCoords s d a =
      (d * Real.cos ((a - 90) / 180 * Real.pi) * s.meterScale + s.circleCenterX,
       d * Real.sin ((a - 90) / 180 * Real.pi) * s.meterScale + s.circleCenterY) := by
    unfold toPanelCoords polToCar convertToPixels
    dsimp only
    rw [if_neg (by linarith : ¬ (a - 90 ≥ 360))]
  have hX : d * Real.cos ((a - 90) / 180 * Real.pi) * s.meterScale + s.circleCenterX
      - s.circleCenterX = d * s.meterScale * Real.cos ((a - 90) / 180 * Real.pi) := by
    ring
  have hY : d * Real.sin ((a - 90) / 180 * Real.pi) * s.meterScale + s.circleCenterY
      - s.circleCenterY = d * s.meterScale * Real.sin ((a - 90) / 180 * Real.pi) := by
    ring
  have hdm : 0 < d * s.meterScale := mul_pos hd hms
  constructor
  · unfold calculateDistance convertToMeters
    rw [hco]
    dsimp only
    rw [hlx, hly, hX, hY]
    have h3 : d * s.meterScale * Real.cos ((a - 90) / 180 * Real.pi) *
          (d * s.meterScale * Real.cos ((a - 90) / 180 * Real.pi)) +
        d * s.meterScale * Real.sin ((a - 90) / 180 * Real.pi) *
          (d * s.meterScale * Real.sin ((a - 90) / 180 * Real.pi))
        = (d * s.meterScale) ^ 2 := by
      linear_combination (d * s.meterScale) ^ 2 *
        Real.sin_sq_add_cos_sq ((a - 90) / 180 * Real.pi)
    rw [h3, Real.sqrt_sq hdm.le]
    field_simp
  · unfold calculateAngle
    rw [hco]
    dsimp only
    rw [hX, hY]
    rcases le_or_lt a 270 with hc | hc
    · have hmem : (a - 90) / 180 * Real.pi ∈ Set.Ioc (-Real.pi) Real.pi := by
        constructor
        · nlinarith
        · nlinarith
      rw [atan2_rmul (d * s.meterScale) _ hdm hmem]
      have hdeg : (a - 90) / 180 * Real.pi * 180 / Real.pi = a - 90 := by
        field_simp
      rw [hdeg]
      simp only [hrel, Bool.false_eq_true, if_false]
      split_ifs <;> linarith
    · rw [show Real.cos ((a - 90) / 180 * Real.pi)
          = Real.cos ((a - 90) / 180 * Real.pi - 2 * Real.pi) from
            (Real.cos_sub_two_pi _).symm,
        show Real.sin ((a - 90) / 180 * Real.pi)
          = Real.sin ((a - 90) / 180 * Real.pi - 2 * Real.pi) from
            (Real.sin_sub_two_pi _).symm]
      have hmem : (a - 90) / 180 * Real.pi - 2 * Real.pi ∈ Set.Ioc (-Real.pi) Real.pi := by
        constructor
        · nlinarith
        · nlinarith
      rw [atan2_rmul (d * s.meterScale) _ hdm hmem]
      have hdeg : ((a - 90) / 180 * Real.pi - 2 * Real.pi) * 180 / Real.pi = a - 450 := by
        field_simp
        ring
      rw [hdeg]
      simp only [hrel, Bool.false_eq_true, if_false]
      split_ifs <;> linarith

/-- Witness for C3 (amended): the spec's own scenario — placing a source at
distance 2 m, angle 0 on the fresh widget and reading back distance and
angle returns exactly `(2, 0)`. -/
theorem toPanelCoords_roundTrip_witness :
    (0 : ℝ) < 2 ∧ (mkState 700 700).angleRelativeToHead = false ∧
    calculateDistance (mkState 700 700) (mkState 700 700).listenerPoint
      ⟨(toPanelCoords (mkState 700 700) 2 0).1,
       (toPanelCoords (mkState 700 700) 2 0).2, "S1", 0⟩ = 2 ∧
    calculateAngle (mkState 700 700)
      ⟨(toPanelCoords (mkState 700 700) 2 0).1,
       (toPanelCoords (mkState 700 700) 2 0).2, "S1", 0⟩ = 0 :=
  have h := toPanelCoords_roundTrip (mkState 700 700) 2 0 "S1" 0
    (by norm_num) le_rfl (by norm_num) rfl (by norm_num [mkState]) rfl rfl
  ⟨by norm_num, rfl, h.1, h.2⟩

theorem processToTransmit_one_event (s : State) (i : ℕ) (p : Point)
    (hact : s.activePoint = some i) (hp : s.val[i]? = some p) :
    ∃ e, processToTransmit s = some [e] := by
  unfold processToTransmit
  by_cases h0 : s.transmitMode = 0
  · rw [if_pos h0]
    exact ⟨_, rfl⟩
  · rw [if_neg h0]
    by_cases h1 : s.transmitMode = 1
    · rw [if_pos h1, hact]
      dsimp only
      rw [hp]
      exact ⟨_, rfl⟩
    · rw [if_neg h1]
      exact ⟨_, rfl⟩

theorem drawEmphasisCircle_some (s : State) (i : ℕ) (se : SourceElem)
    (hact : s.activePoint = some i) (hse : s.sourceElements[i]? = some se) :
    drawEmphasisCircle s = some { s with
      sourceElements := s.sourceElements.mapIdx fun j e =>
        if j = i then { e with stroke := s.activeBorderColor }
        else { e with stroke := "none" } } := by
  unfold drawEmphasisCircle
  rw [hact]
  dsimp only
  rw [hse]

theorem processToTransmit_ne_none (s : State) (i : ℕ) (p : Point)
    (hact : s.activePoint = some i) (hp : s.val[i]? = some p) :
    processToTransmit s ≠ none := by
  obtain ⟨e, he⟩ := processToTransmit_one_event s i p hact hp
  rw [he]
  exact fun h => Option.noConfusion h

theorem processToTransmit_eq_single (s : State) (i : ℕ) (p : Point)
    (ev : List (Option TransmitData)) (hact : s.activePoint = some i)
    (hp : s.val[i]? = some p) (heq : processToTransmit s = some ev) :
    ev.length = 1 := by
  obtain ⟨e, he⟩ := processToTransmit_one_event s i p hact hp
  rw [he] at heq
  injection heq with h
  rw [← h]
  rfl

theorem move_active (t : State) (i : ℕ) (p : Point)
    (hcl : t.clickable = true) (hck : t.clicked = true)
    (hact : t.activePoint = some i) (hp : t.val[i]? = some p)
    (hin : (t.mouseX - t.circleCenterX) * (t.mouseX - t.circleCenterX) +
           (t.mouseY - t.circleCenterY) * (t.mouseY - t.circleCenterY)
           ≤ t.bgRadius * t.bgRadius)
    (hsrc : i < t.sourceElements.length) (hlab : i < t.labelElements.length) :
    ∃ s4 ev, move t = some (s4, ev) ∧ ev.length = 1 ∧
      ∃ q, s4.val[i]? = some q ∧ q.x = t.mouseX ∧ q.y = t.mouseY := by
  have hi : i < t.val.length := lt_length_of_getq_some hp
  unfold move
  rw [if_pos hcl, if_pos hck, hact]
  dsimp only
  rw [hp]
  dsimp only
  split
  next s2 heq =>
    -- scaleNode of the mouse-updated state cannot throw
    unfold scaleNode at heq
    dsimp only at heq
    rw [List.getElem?_set_eq_of_lt _ hi] at heq
    exact Option.noConfusion heq
  next s2 heq =>
    unfold scaleNode at heq
    dsimp only at heq
    rw [List.getElem?_set_eq_of_lt _ hi] at heq
    injection heq with heq
    have hcl2 : clampPoint
        { t with activePoint := some i,
                 val := t.val.set i ⟨t.mouseX, t.mouseY, p.label, p.colorIndex⟩ }
        ⟨t.mouseX, t.mouseY, p.label, p.colorIndex⟩
        = ⟨t.mouseX, t.mouseY, p.label, p.colorIndex⟩ := by
      unfold clampPoint
      dsimp only
      rw [if_neg]
      exact not_lt.mpr hin
    rw [hcl2] at heq
    subst heq
    split
    next s3 heq2 =>
      unfold drawEmphasisCircle at heq2
      dsimp only at heq2
      obtain ⟨se, hse⟩ : ∃ se, t.sourceElements[i]? = some se := by
        rw [List.getElem?_eq_getElem hsrc]
        exact ⟨_, rfl⟩
      rw [hse] at heq2
      exact Option.noConfusion heq2
    next s3 heq2 =>
      unfold drawEmphasisCircle at heq2
      dsimp only at heq2
      obtain ⟨se, hse⟩ : ∃ se, t.sourceElements[i]? = some se := by
        rw [List.getElem?_eq_getElem hsrc]
        exact ⟨_, rfl⟩
      rw [hse] at heq2
      injection heq2 with heq2
      subst heq2
      dsimp only
      have hval2 : ((t.val.set i (⟨t.mouseX, t.mouseY, p.label, p.colorIndex⟩ : Point)).set i
          (⟨t.mouseX, t.mouseY, p.label, p.colorIndex⟩ : Point))[i]?
          = some ⟨t.mouseX, t.mouseY, p.label, p.colorIndex⟩ :=
        List.getElem?_set_eq_of_lt _ (by simpa using hi)
      rw [hval2]
      obtain ⟨se2, hse2⟩ : ∃ se2,
          (t.sourceElements.mapIdx fun j e =>
            if j = i then { e with stroke := t.activeBorderColor }
            else { e with stroke := "none" })[i]? = some se2 := by
        rw [List.getElem?_eq_getElem (by simpa using hsrc)]
        exact ⟨_, rfl⟩
      rw [hse2]
      obtain ⟨le2, hle2⟩ : ∃ le2, t.labelElements[i]? = some le2 := by
        rw [List.getElem?_eq_getElem hlab]
        exact ⟨_, rfl⟩
      rw [hle2]
      dsimp only
      split
      next heq3 =>
        exact absurd heq3 (processToTransmit_ne_none _ i _ rfl hval2)
      next ev heq3 =>
        refine ⟨_, ev, rfl, processToTransmit_eq_single _ i _ ev rfl hval2 heq3,
          ⟨t.mouseX, t.mouseY, p.label, p.colorIndex⟩, hval2, rfl, rfl⟩

/-- C10 (amended): with `clickable` and `clicked` set, on a lockstep state,
a pointer-down whose hit test selects point `i` and whose pointer position
lies inside the boundary circle overwrites point `i`'s stored coordinates
with the exact pointer location, and the `change` event is emitted exactly
twice — once by `click`'s own transmit step and once by the `move` step it
invokes.  (When the pointer is outside the boundary circle the stored
coordinates are the clamp of the pointer location instead — see the
counterexample.) -/
theorem click_hit_snaps_and_emits_twice (s : State) (i : ℕ)
    (hcl : s.clickable = true) (hck : s.clicked = true) (hls : lockstep s)
    (hhit : (setActivePoint s s.mouseX s.mouseY).activePoint = some i)
    (hin : (s.mouseX - s.circleCenterX) * (s.mouseX - s.circleCenterX) +
           (s.mouseY - s.circleCenterY) * (s.mouseY - s.circleCenterY)
           ≤ s.bgRadius * s.bgRadius) :
    ∃ s' ev1 ev2, click s = some (s', ev1 ++ ev2) ∧ ev1.length = 1 ∧ ev2.length = 1 ∧
      ∃ q, s'.val[i]? = some q ∧ q.x = s.mouseX ∧ q.y = s.mouseY := by
  have hhit' : hitLoop s.nodeSize s.mouseX s.mouseY s.val 0 none = some i := hhit
  obtain ⟨⟨p, hp, -, -⟩, -⟩ := ((setActivePoint_spec s s.mouseX s.mouseY).1 i).mp hhit
  have hi : i < s.val.length := lt_length_of_getq_some hp
  have hisrc : i < s.sourceElements.length := hls.1 ▸ hi
  have hilab : i < s.labelElements.length := hls.2 ▸ hi
  have hsa : setActivePoint s s.mouseX s.mouseY = { s with activePoint := some i } := by
    unfold setActivePoint
    rw [hhit']
  unfold click
  rw [if_pos hcl]
  dsimp only
  rw [hsa]
  dsimp only
  have hnotnone : ¬ (({ s with activePoint := some i } : State).activePoint = none) := by
    simp
  rw [if_neg hnotnone, ite_self]
  dsimp only
  split
  next s3 heq =>
    unfold scaleNode at heq
    dsimp only at heq
    rw [hp] at heq
    exact Option.noConfusion heq
  next s3 heq =>
    unfold scaleNode at heq
    dsimp only at heq
    rw [hp] at heq
    injection heq with heq
    subst heq
    have hval3 : (s.val.set i (clampPoint { s with activePoint := some i } p))[i]?
        = some (clampPoint { s with activePoint := some i } p) :=
      List.getElem?_set_eq_of_lt _ hi
    split
    next heq2 =>
      exact absurd heq2 (processToTransmit_ne_none _ i _ rfl hval3)
    next ev1 heq2 =>
      have hlen1 : ev1.length = 1 :=
        processToTransmit_eq_single _ i _ ev1 rfl hval3 heq2
      obtain ⟨s4A, evA, hmv, hlenA, qA, hqA, hqAx, hqAy⟩ :=
        move_active
          { s with
            activePoint := some i,
            val := s.val.set i (clampPoint { s with activePoint := some i } p) }
          i (clampPoint { s with activePoint := some i } p)
          hcl hck rfl hval3 hin (by simpa using hisrc) (by simpa using hilab)
      split
      next heq3 =>
        rw [heq3] at hmv
        exact Option.noConfusion hmv
      next s4 ev2 heq3 =>
        rw [heq3] at hmv
        injection hmv with hmv
        injection hmv with hmv1 hmv2
        subst hmv1
        subst hmv2
        exact ⟨s4, ev1, ev2, rfl, hlen1, hlenA, qA, hqA, hqAx, hqAy⟩

/-- A clicked-down state: one point sits exactly on the boundary circle at
`(650, 350)` and the pointer is at `(655, 350)` — inside the point's
bounding box but outside the boundary circle. -/
def c10S : State :=
  { mkState 700 700 with
    val := [⟨650, 350, "Point 1", 0⟩],
    sourceElements := [⟨650, 350, 30, "0.5", some "#845ec2", "none"⟩],
    labelElements := [⟨650, 400, "black", "middle", "Point 1"⟩],
    clicked := true,
    mouseX := 655,
    mouseY := 350 }

/-- C10 counterexample: the pointer-down at `(655, 350)` hit-tests to the
existing point, but the stored coordinates end up at `(650, 350)` — the
clamp of the pointer location — not at the exact pointer location
`(655, 350)` the claim asserts. -/
theorem click_clamps_instead_of_exact_snap :
    (click c10S).map (fun r => r.1.val.map fun p => (p.x, p.y))
      = some [((650 : ℝ), (350 : ℝ))] ∧
    ((650 : ℝ), (350 : ℝ)) ≠ ((655 : ℝ), (350 : ℝ)) := by
  constructor
  · norm_num [c10S, mkState, click, move, setActivePoint, hitLoop, scaleNode,
      clampPoint, drawEmphasisCircle, processToTransmit, atan2_zero_nonneg,
      Option.some_ne_none, List.mapIdx_cons, min_self, Real.cos_zero, Real.sin_zero]
  · intro h
    have := congrArg Prod.fst h
    norm_num at this

/-- A clicked-down state like `c10S` but with the pointer at `(640, 350)`,
inside both the point's bounding box and the boundary circle. -/
def c10W : State :=
  { mkState 700 700 with
    val := [⟨650, 350, "Point 1", 0⟩],
    sourceElements := [⟨650, 350, 30, "0.5", some "#845ec2", "none"⟩],
    labelElements := [⟨650, 400, "black", "middle", "Point 1"⟩],
    clicked := true,
    mouseX := 640,
    mouseY := 350 }

/-- Witness for C10 (amended): a pointer-down at `(640, 350)` hits the point
at `(650, 350)`, snaps it exactly to the pointer, and emits two events. -/
theorem click_hit_snaps_and_emits_twice_witness :
    c10W.clickable = true ∧ c10W.clicked = true ∧ lockstep c10W ∧
    (setActivePoint c10W c10W.mouseX c10W.mouseY).activePoint = some 0 ∧
    ∃ s' ev1 ev2, click c10W = some (s', ev1 ++ ev2) ∧
      ev1.length = 1 ∧ ev2.length = 1 ∧
      ∃ q, s'.val[0]? = some q ∧ q.x = c10W.mouseX ∧ q.y = c10W.mouseY :=
  have hhit : (setActivePoint c10W c10W.mouseX c10W.mouseY).activePoint = some 0 := by
    norm_num [setActivePoint, hitLoop, c10W, mkState]
  have hls : lockstep c10W := ⟨rfl, rfl⟩
  ⟨rfl, rfl, hls, hhit,
   click_hit_snaps_and_emits_twice c10W 0 rfl rfl hls hhit
     (by norm_num [c10W, mkState, min_self])⟩

end PanBinaural

end
